import Mathlib

/-!
A shallow embedding of the document-normalization pipeline of this repository
(`hardened_straightener.py`, `cropper.py`, `straightener.py`).

External native calls (PaddleOCR inference, Tesseract OSD, OpenCV edge/line
detectors, transcendental float functions) are modelled as oracle inputs:
each definition below takes the values those calls would return and mirrors
the Python control flow over them exactly.  Machine floats are modelled by
the rationals; the transcendental operations (arctan2 in degrees, cos, sin,
sqrt) appear as oracle function parameters, constrained by hypotheses where
a claim needs their actual range.
-/

/-- Result record of one orientation estimator, mirroring the Python dict
with keys angle, confidence, method, fallback_used
(hardened_straightener.py). -/
structure OrientationEstimate where
  angle : ℤ
  confidence : ℚ
  method : String
  fallback_used : Bool
deriving Repr, DecidableEq

/-- Outcome of the geometry stage of the orientation cascade:
either the Canny/HoughLines code raised, or HoughLines returned a value
(Python None is modelled as none; a returned array is the list of its
entries, each entry flattened to the list of its numbers). -/
inductive GeoResult where
  | raised : GeoResult
  | lines : Option (List (List ℚ)) → GeoResult
deriving DecidableEq

/-- Oracles for the transcendental functions used by the geometry stage:
np.degrees (of a theta in radians) and np.degrees of np.arctan2. -/
structure GeoEnv where
  degreesOf : ℚ → ℚ
  atan2deg : ℚ → ℚ → ℚ

/-- Inputs of one run of HardenedOrientationDetector.detect_orientation:
the PaddleOCR prediction (none when the model is unavailable or predict
raised), the Tesseract OSD output rotate and orientation_conf (none when
pytesseract raised), and the geometry-stage outcome. -/
structure OrientationInput where
  paddle : Option (ℤ × ℚ)
  osd : Option (ℤ × ℚ)
  geo : GeoResult

/-- Angle extracted from one HoughLines entry
(hardened_straightener.py, lines 178-198): two or three numbers are read as
rho/theta, four or more as a segment, fewer are skipped. -/
def entryAngle (env : GeoEnv) (vals : List ℚ) : Option ℚ :=
  match vals with
  | [_, theta] => some (env.degreesOf theta - 90)
  | [_, theta, _] => some (env.degreesOf theta - 90)
  | x1 :: y1 :: x2 :: y2 :: _ => some (env.atan2deg (y2 - y1) (x2 - x1))
  | _ => none

/-- Python float modulo with positive divisor 360 (result in [0, 360)). -/
def pymod360 (x : ℚ) : ℚ := x - 360 * ⌊x / 360⌋

/-- Bucketing of a raw angle to 0/90/180/270
(hardened_straightener.py, lines 200-210). -/
def bucketAngle (angle : ℚ) : ℤ :=
  let a := pymod360 (angle + 360)
  if a ≤ 45 ∨ a > 315 then 0
  else if a ≤ 135 then 90
  else if a ≤ 225 then 180
  else 270

/-- Python max over an association list keyed by its second component:
keeps the first entry whose value is maximal (later entries replace the
current best only when strictly greater). -/
def pyMaxSnd (l : List (ℤ × ℕ)) : ℤ × ℕ :=
  match l with
  | [] => (0, 0)
  | h :: t => t.foldl (fun b x => if x.2 > b.2 then x else b) h

/-- Bucketed angles of the top 20 HoughLines entries
(hardened_straightener.py, lines 175-210); empty when HoughLines returned
None. -/
def geoAngles (env : GeoEnv) (ls : Option (List (List ℚ))) : List ℤ :=
  match ls with
  | none => []
  | some lns => ((lns.take 20).filterMap (entryAngle env)).map bucketAngle

/-- The vote among bucketed angles (hardened_straightener.py,
lines 212-236): most common bucket with first-wins tie break, confidence
the vote share; the (0, 0.3) default when no angles were collected. -/
def geoVote (angles : List ℤ) : OrientationEstimate :=
  if angles = [] then ⟨0, 3/10, "geometry_default", true⟩
  else
    let counts : List (ℤ × ℕ) :=
      [(0, angles.count 0), (90, angles.count 90),
       (180, angles.count 180), (270, angles.count 270)]
    let best := pyMaxSnd counts
    ⟨best.1, (best.2 : ℚ) / (angles.length : ℚ), "geometry", true⟩

/-- HardenedOrientationDetector._geometry_fallback
(hardened_straightener.py, lines 160-245): vote among bucketed line angles;
(0, 0.3) when no lines or no parsed angles; (0, 0.1) when the stage raised. -/
def geometry_fallback (env : GeoEnv) (geo : GeoResult) : OrientationEstimate :=
  match geo with
  | .raised => ⟨0, 1/10, "default", true⟩
  | .lines ls => geoVote (geoAngles env ls)

/-- HardenedOrientationDetector._tesseract_osd_fallback
(hardened_straightener.py, lines 98-132): OSD rotation with confidence
orientation_conf / 100; below 0.5 the geometry estimate supersedes it iff
strictly more confident; on a pytesseract exception the geometry stage runs. -/
def tesseract_osd_fallback (env : GeoEnv) (osd : Option (ℤ × ℚ))
    (geo : GeoResult) : OrientationEstimate :=
  match osd with
  | none => geometry_fallback env geo
  | some (rot, rawConf) =>
    let confidence := rawConf / 100
    if confidence < 1/2 then
      let g := geometry_fallback env geo
      if g.confidence > confidence then g
      else ⟨rot, confidence, "tesseract_osd", true⟩
    else ⟨rot, confidence, "tesseract_osd", true⟩

/-- HardenedOrientationDetector.detect_orientation
(hardened_straightener.py, lines 45-96): PaddleOCR estimate; below the 0.6
threshold the OSD fallback result supersedes it iff strictly more
confident; when PaddleOCR is unavailable or raised, the fallback result is
returned directly. -/
def detect_orientation (env : GeoEnv) (inp : OrientationInput) :
    OrientationEstimate :=
  match inp.paddle with
  | none => tesseract_osd_fallback env inp.osd inp.geo
  | some (angle, confidence) =>
    if confidence < 3/5 then
      let fb := tesseract_osd_fallback env inp.osd inp.geo
      if fb.confidence > confidence then fb
      else ⟨angle, confidence, "paddleocr", false⟩
    else ⟨angle, confidence, "paddleocr", false⟩

/-- Trivial geometry oracle used to instantiate closed statements. -/
def gW : GeoEnv := ⟨fun _ => 0, fun _ _ => 0⟩

/- ----------------------- skew corrector ----------------------- -/

/-- One line segment as returned by cv2.HoughLinesP. -/
structure Seg where
  x1 : ℚ
  y1 : ℚ
  x2 : ℚ
  y2 : ℚ
deriving DecidableEq, Repr

/-- Oracles for the transcendental functions of the skew detector:
np.arctan2(dy, dx) * 180 / pi, and the square root taken inside np.std. -/
structure SkewEnv where
  atan2deg : ℚ → ℚ → ℚ
  sqrtQ : ℚ → ℚ

/-- The single fold applied to a raw segment angle
(hardened_straightener.py, lines 310-314): subtract 90 when above 45, add
90 when below -45. -/
def foldOnce (angle : ℚ) : ℚ :=
  if angle > 45 then angle - 90
  else if angle < -45 then angle + 90
  else angle

/-- Folded angles of the non-vertical segments
(hardened_straightener.py, lines 305-315): segments with x2 = x1 are
skipped, every other segment contributes its folded arctan2 angle. -/
def segAngles (env : SkewEnv) (segs : List Seg) : List ℚ :=
  segs.filterMap (fun s =>
    if s.x2 = s.x1 then none
    else some (foldOnce (env.atan2deg (s.y2 - s.y1) (s.x2 - s.x1))))

/-- np.mean of a rational list. -/
def npMean (l : List ℚ) : ℚ := l.sum / (l.length : ℚ)

/-- np.median: middle element of the sorted list, or the mean of the two
middle elements for even length. -/
def npMedian (l : List ℚ) : ℚ :=
  let s := l.mergeSort (fun a b => a ≤ b)
  if l.length % 2 = 1 then s.getD (l.length / 2) 0
  else (s.getD (l.length / 2 - 1) 0 + s.getD (l.length / 2) 0) / 2

/-- Population variance, the square of np.std. -/
def npVariance (l : List ℚ) : ℚ :=
  ((l.map (fun a => (a - npMean l) ^ 2)).sum) / (l.length : ℚ)

/-- HardenedSkewCorrector.detect_skew_angle
(hardened_straightener.py, lines 264-336) over the HoughLinesP outcome
(none models both a raised exception and a Python None result): median of
the folded segment angles with confidence max(0, 1 - std/10), rejected to
(0, 0) when no angles exist or the median magnitude exceeds
max_skew_angle = 5. -/
def detect_skew_angle (env : SkewEnv) (segs : Option (List Seg)) : ℚ × ℚ :=
  match segs with
  | none => (0, 0)
  | some lns =>
    let angles := segAngles env lns
    if angles = [] then (0, 0)
    else
      let medianAngle := npMedian angles
      let angleStd := env.sqrtQ (npVariance angles)
      let confidence := max 0 (1 - angleStd / 10)
      if |medianAngle| > 5 then (0, 0)
      else (medianAngle, confidence)

/-- Oracles of the rotation step of HardenedSkewCorrector.correct_skew:
cv2.warpAffine at a given canvas size, and the absolute cosine and sine
taken from the rotation matrix for the angle at hand. -/
structure RotateEnv (α : Type) where
  warpAffine : α → ℤ × ℤ → α
  cosAbs : ℚ
  sinAbs : ℚ

/-- Enlarged canvas (hardened_straightener.py, lines 363-366):
new_w = int(h * sin + w * cos), new_h = int(h * cos + w * sin);
int truncation equals the floor here since both operands are nonnegative. -/
def newCanvas (w h : ℕ) (cosAbs sinAbs : ℚ) : ℤ × ℤ :=
  (⌊(h : ℚ) * sinAbs + (w : ℚ) * cosAbs⌋, ⌊(h : ℚ) * cosAbs + (w : ℚ) * sinAbs⌋)

/-- The angle correct_skew works with: the given one, or the detected one
when None was passed (hardened_straightener.py, lines 349-351). -/
def effectiveAngle (env : SkewEnv) (segs : Option (List Seg))
    (angleOpt : Option ℚ) : ℚ :=
  match angleOpt with
  | some a => a
  | none => (detect_skew_angle env segs).1

/-- HardenedSkewCorrector.correct_skew
(hardened_straightener.py, lines 338-379): below the min_skew_threshold of
0.3 the input image is returned with applied angle 0; otherwise the image
is warped onto the enlarged canvas and the angle is reported. -/
def correct_skew {α : Type} (env : SkewEnv) (renv : RotateEnv α) (img : α)
    (w h : ℕ) (angleOpt : Option ℚ) (segs : Option (List Seg)) : α × ℚ :=
  let angle := effectiveAngle env segs angleOpt
  if |angle| < 3/10 then (img, 0)
  else (renv.warpAffine img (newCanvas w h renv.cosAbs renv.sinAbs), angle)

/-- Skew oracle whose arctan2 returns the vertical difference; used to
instantiate closed statements on concrete segments. -/
def skW : SkewEnv := ⟨fun dy _ => dy, fun q => if q = 1 then 1 else 0⟩

/-- Skew oracle matching np.arctan2 on the inputs of the concrete segment
(1, 0) to (0, 0): np.degrees(np.arctan2(0, -1)) = 180. -/
def skW180 : SkewEnv := ⟨fun dy dx => if dy = 0 ∧ dx < 0 then 180 else 0, fun _ => 0⟩

/-- Trivial rotate oracle over ℕ images: warping always yields image 1. -/
def rW : RotateEnv ℕ := ⟨fun _ _ => 1, 1, 0⟩

/- ----------------------- document cropper ----------------------- -/

/-- One contour as seen by warp_card (cropper.py): its cv2.contourArea,
the vertex count of its approxPolyDP polygon, and that polygon's area. -/
structure Contour where
  area : ℚ
  approxLen : ℕ
  approxArea : ℚ
deriving DecidableEq, Repr

/-- One edge-detection strategy of warp_card (cropper.py, lines 27-31). -/
structure Strategy where
  blurK : ℕ × ℕ
  cannyLo : ℕ
  cannyHi : ℕ
  sname : String
deriving DecidableEq, Repr

/-- The fixed strategy list of warp_card, conservative to aggressive. -/
def strategies : List Strategy :=
  [⟨(5, 5), 75, 200, "standard"⟩,
   ⟨(3, 3), 50, 150, "sensitive"⟩,
   ⟨(7, 7), 100, 250, "aggressive"⟩]

/-- Acceptance test of warp_card (cropper.py, lines 45-49): a 4-point
polygon approximation whose area exceeds 10 percent of the image area. -/
def quadAccept (imgArea : ℚ) (c : Contour) : Bool :=
  c.approxLen = 4 ∧ c.approxArea > imgArea * (1/10)

/-- Contours sorted by area descending (stable, as Python sorted with
reverse=True) and truncated to the top 5 (cropper.py, line 40). -/
def sortedTop5 (cs : List Contour) : List Contour :=
  (cs.mergeSort (fun a b => b.area ≤ a.area)).take 5

/-- First accepted quad within one strategy (cropper.py, lines 42-52). -/
def findQuadIn (imgArea : ℚ) (cs : List Contour) : Option Contour :=
  (sortedTop5 cs).find? (quadAccept imgArea)

/-- The strategy loop of warp_card (cropper.py, lines 36-55): strategies
are tried in order and the search stops at the first accepted quad. -/
def firstQuad (detect : Strategy → List Contour) (imgArea : ℚ) :
    Option (Strategy × Contour) :=
  strategies.findSome? (fun st =>
    (findQuadIn imgArea (detect st)).map (fun c => (st, c)))

/-- Terminal outcome of warp_card: a manual-review artifact with its
logged reason, or the cropped canonical image. -/
inductive CropOutcome (α : Type) where
  | manualReview : String → CropOutcome α
  | cropped : String → α → CropOutcome α
deriving DecidableEq

/-- Oracles of one warp_card run: the cv2.imread outcome (none when the
file is unreadable, otherwise the height and width), the contours each
strategy yields, the perspective-warp outcome (error models cv2.error),
the mean intensity of a warped image, the EAST skew estimate, and the
deskew rotation. -/
structure CropEnv (α : Type) where
  image : Option (ℕ × ℕ)
  detect : Strategy → List Contour
  warp : Except String α
  meanIntensity : α → ℚ
  eastSkew : α → ℚ
  rotate : α → ℚ → α

/-- warp_card (cropper.py, lines 19-96): strategy loop, perspective warp,
mean-intensity sanity check on [10, 245], and EAST deskew refinement
applied only above 1 degree of measured skew. -/
def warp_card {α : Type} (env : CropEnv α) : CropOutcome α :=
  match env.image with
  | none => .manualReview "Could not read image file"
  | some (h, w) =>
    match firstQuad env.detect ((h : ℚ) * (w : ℚ)) with
    | none => .manualReview "No 4-point contour found with any strategy"
    | some (st, _) =>
      match env.warp with
      | .error e => .manualReview ("Perspective transform failed: " ++ e)
      | .ok warped =>
        let m := env.meanIntensity warped
        if m < 10 ∨ m > 245 then
          .manualReview "Warped image has extreme intensity values"
        else
          let skew := env.eastSkew warped
          .cropped st.sname
            (if |skew| > 1 then env.rotate warped skew else warped)

/- ----------------------- full pipeline ----------------------- -/

/-- Oracles of one HardenedStraightener.straighten_image run: the decoded
and EXIF-transposed input (error models any exception while decoding), the
orientation-cascade inputs, the 90-degree-step rotation, the skew stage
(error models an exception inside detection-plus-warp), and the measured
elapsed time. -/
structure PipelineEnv (α : Type) where
  decoded : Except String α
  geoEnv : GeoEnv
  orient : OrientationInput
  rotate90 : α → ℤ → α
  skewStage : α → Except String (α × ℚ)
  elapsed : ℚ

/-- Result record of straighten_image (hardened_straightener.py,
lines 445-467), with optional image, error and metadata fields. -/
structure StraightenResult (α : Type) where
  success : Bool
  image : Option α
  error : Option String
  orientationMeta : Option (ℤ × ℚ × String × Bool)
  skewMeta : Option (ℚ × Bool)
  processing_time : ℚ

/-- The coarse rotation step of straighten_image (hardened_straightener.py,
lines 428-435): the image is rotated only for the angles 90, 180, 270. -/
def coarseRotated {α : Type} (env : PipelineEnv α) (img : α) : α :=
  let o := detect_orientation env.geoEnv env.orient
  if o.angle = 90 ∨ o.angle = 180 ∨ o.angle = 270
  then env.rotate90 img o.angle else img

/-- HardenedStraightener.straighten_image (hardened_straightener.py,
lines 388-467): decode, orientation cascade, coarse rotation for
90/180/270, skew correction, assembled result; every exception is caught
and becomes a success-false record carrying the message and elapsed time. -/
def straighten_image {α : Type} (env : PipelineEnv α) : StraightenResult α :=
  match env.decoded with
  | .error e => ⟨false, none, some e, none, none, env.elapsed⟩
  | .ok img =>
    let o := detect_orientation env.geoEnv env.orient
    match env.skewStage (coarseRotated env img) with
    | .error e => ⟨false, none, some e, none, none, env.elapsed⟩
    | .ok (img3, skewAngle) =>
      ⟨true, some img3, none,
       some (o.angle, o.confidence, o.method, o.fallback_used),
       some (skewAngle, |skewAngle| > 3/10), env.elapsed⟩

/- ----------------------- brute-force rotator ----------------------- -/

/-- The Spanish ID keywords of straightener.py. -/
def KEYWORDS : List String :=
  ["DNI", "ESPAÑA", "ESP", "DOCUMENTO", "NACIONAL", "IDENTIDAD"]

/-- Substring containment over strings (Python in operator). -/
def strContainsSub (s pat : String) : Bool :=
  (List.range (s.length + 1)).any (fun i => pat.isPrefixOf (String.drop s i))

/-- One pytesseract image_to_data outcome: the text entries and the
per-entry confidences. -/
structure OcrPass where
  text : List String
  conf : List ℤ

/-- The nonblank words of a pass (straightener.py, line 51). -/
def passWords (p : OcrPass) : List String :=
  p.text.filter (fun w => w.trim ≠ "")

/-- The strictly positive confidences of a pass (straightener.py, line 55). -/
def passConfs (p : OcrPass) : List ℤ :=
  p.conf.filter (fun c => 0 < c)

/-- np.mean of an integer list as a rational. -/
def npMeanZ (l : List ℤ) : ℚ := (l.sum : ℚ) / (l.length : ℚ)

/-- Keyword bonus (straightener.py, line 76): 25 per keyword contained in
the uppercased space-joined word list. -/
def keywordBonus (words : List String) : ℚ :=
  25 * ((KEYWORDS.filter
    (fun k => strContainsSub (String.intercalate " " words).toUpper k)).length : ℚ)

/-- The _ocr_score routine of straightener.py (lines 43-77) over the base
OCR pass and the enhanced-image pass: -1 without words or positive
confidences; the enhanced pass replaces words and mean confidence when it
is attempted (mean below 75) and strictly improves the mean. -/
def ocr_score (base enhanced : OcrPass) : ℚ :=
  let words := passWords base
  if words = [] then -1
  else
    let confs := passConfs base
    if confs = [] then -1
    else
      let avgConf := npMeanZ confs
      let upd :=
        if avgConf < 75 then
          let ewords := passWords enhanced
          let econfs := passConfs enhanced
          if econfs ≠ [] ∧ npMeanZ econfs > avgConf
          then (ewords, npMeanZ econfs) else (words, avgConf)
        else (words, avgConf)
      upd.2 + 3 * (upd.1.length : ℚ) + keywordBonus upd.1

/-- OCR oracle of auto_rotate: the base and enhanced OCR passes obtained
at each tested rotation angle. -/
structure RotOracle where
  ocrAt : ℕ → OcrPass × OcrPass

/-- The _ocr_score value at one rotation angle. -/
def scoreAt (o : RotOracle) (a : ℕ) : ℚ :=
  ocr_score (o.ocrAt a).1 (o.ocrAt a).2

/-- The selection loop of auto_rotate (straightener.py, lines 90-102):
start from angle 0, then test 90, 180, 270 in order, replacing the best
only on a strictly greater score. -/
def auto_rotate_best (o : RotOracle) : ℕ × ℚ :=
  [90, 180, 270].foldl
    (fun b a => if scoreAt o a > b.2 then (a, scoreAt o a) else b)
    (0, scoreAt o 0)

/-- Outcome of auto_rotate: the original path untouched, or a newly
written rotated file. -/
inductive RotateOutcome where
  | keepOriginal : String → RotateOutcome
  | wrote : ℕ → String → RotateOutcome
deriving DecidableEq, Repr

/-- auto_rotate (straightener.py, lines 79-111): writes and returns a
rotated copy only for a winning non-zero angle, otherwise returns the
original path. -/
def auto_rotate (o : RotOracle) (path name : String) : RotateOutcome :=
  let best := auto_rotate_best o
  if best.1 ≠ 0
  then .wrote best.1 (String.append (String.append "rot_" (toString best.1 ++ "_")) name)
  else .keepOriginal path

/-- OCR oracle every pass of which is blank; instantiates the no-words
scenario. -/
def oW : RotOracle := ⟨fun _ => (⟨[], []⟩, ⟨[], []⟩)⟩

/-- Contour oracle for closed statements: only the sensitive strategy
(the one with lower Canny threshold 50) yields a contour, a 4-point
approximation of area 50. -/
def detectW : Strategy → List Contour :=
  fun st => if st.cannyLo = 50 then [⟨100, 4, 50⟩] else []

/-- Crop oracle for closed statements: a readable 10 by 10 image, the
detectW contours, a successful warp to image 7, mean intensity 100 and
EAST skew 0. -/
def cEnvW : CropEnv ℕ :=
  ⟨some (10, 10), detectW, .ok 7, fun _ => 100, fun _ => 0, fun a _ => a + 1⟩

/-- Pipeline oracle for closed statements whose decoding stage fails. -/
def pEnvW : PipelineEnv ℕ :=
  ⟨.error "boom", gW, ⟨none, none, .raised⟩, fun a _ => a, fun a => .ok (a, 0), 1⟩

/- ===================== theorems ===================== -/

/-- The value picked by pyMaxSnd from a four-entry list is one of the four
entry values, hence bounded by any common bound. -/
theorem pyMaxSnd_le_of_four (x0 x1 x2 x3 : ℤ × ℕ) (n : ℕ)
    (h0 : x0.2 ≤ n) (h1 : x1.2 ≤ n) (h2 : x2.2 ≤ n) (h3 : x3.2 ≤ n) :
    (pyMaxSnd [x0, x1, x2, x3]).2 ≤ n := by
  simp only [pyMaxSnd, List.foldl]
  split_ifs <;> assumption

/-- The geometry vote confidence always lies in the unit interval. -/
theorem geoVote_conf_bounds (angles : List ℤ) :
    0 ≤ (geoVote angles).confidence ∧ (geoVote angles).confidence ≤ 1 := by
  by_cases h : angles = []
  · simp [geoVote, h]
    norm_num
  · have hlen : 0 < angles.length := List.length_pos.mpr h
    have hle : (pyMaxSnd [(0, angles.count 0), (90, angles.count 90),
        (180, angles.count 180), (270, angles.count 270)]).2 ≤ angles.length := by
      apply pyMaxSnd_le_of_four <;> exact List.count_le_length _ _
    simp only [geoVote, if_neg h]
    constructor
    · positivity
    · rw [div_le_one (by exact_mod_cast hlen)]
      exact_mod_cast hle

/-- The geometry-stage confidence always lies in the unit interval. -/
theorem geometry_conf_bounds (env : GeoEnv) (geo : GeoResult) :
    0 ≤ (geometry_fallback env geo).confidence ∧
    (geometry_fallback env geo).confidence ≤ 1 := by
  cases geo with
  | raised => constructor <;> norm_num [geometry_fallback]
  | lines ls => exact geoVote_conf_bounds (geoAngles env ls)

/-- The OSD-stage confidence lies in the unit interval whenever the raw
Tesseract orientation_conf lies in [0, 100]. -/
theorem osd_conf_bounds (env : GeoEnv) (osd : Option (ℤ × ℚ)) (geo : GeoResult)
    (ho : ∀ r rc, osd = some (r, rc) → 0 ≤ rc ∧ rc ≤ 100) :
    0 ≤ (tesseract_osd_fallback env osd geo).confidence ∧
    (tesseract_osd_fallback env osd geo).confidence ≤ 1 := by
  cases osd with
  | none => exact geometry_conf_bounds env geo
  | some p =>
    obtain ⟨r, rc⟩ := p
    obtain ⟨hrc0, hrc1⟩ := ho r rc rfl
    have hd0 : (0 : ℚ) ≤ rc / 100 := by positivity
    have hd1 : rc / 100 ≤ 1 := by linarith
    simp only [tesseract_osd_fallback]
    split_ifs with hlow hgeo
    · exact geometry_conf_bounds env geo
    · exact ⟨hd0, hd1⟩
    · exact ⟨hd0, hd1⟩

/-- C1: in the orientation cascade, when the CNN estimate exists with
confidence below the 0.6 threshold, the result of the OSD fallback stage
is returned exactly when its confidence is strictly greater than the CNN
confidence, the CNN estimate being kept otherwise (so the earlier estimate
wins ties); and when the OSD estimate exists with confidence below 0.5,
the geometry estimate is returned exactly when its confidence is strictly
greater than the OSD confidence, the OSD estimate being kept otherwise. -/
theorem C1_cascade_supersession :
    (∀ (env : GeoEnv) (inp : OrientationInput) (a : ℤ) (c : ℚ),
       inp.paddle = some (a, c) → c < 3/5 →
       detect_orientation env inp =
         (if (tesseract_osd_fallback env inp.osd inp.geo).confidence > c
          then tesseract_osd_fallback env inp.osd inp.geo
          else ⟨a, c, "paddleocr", false⟩))
    ∧ (∀ (env : GeoEnv) (osd : Option (ℤ × ℚ)) (geo : GeoResult) (r : ℤ) (rc : ℚ),
       osd = some (r, rc) → rc / 100 < 1/2 →
       tesseract_osd_fallback env osd geo =
         (if (geometry_fallback env geo).confidence > rc / 100
          then geometry_fallback env geo
          else ⟨r, rc / 100, "tesseract_osd", true⟩)) := by
  constructor
  · intro env inp a c hp hc
    simp only [detect_orientation, hp]
    rw [if_pos hc]
  · intro env osd geo r rc ho hrc
    simp only [tesseract_osd_fallback, ho]
    rw [if_pos hrc]

/-- Witness for C1 at a CNN estimate of confidence 0.5 and an OSD estimate
of raw confidence 30 (so 0.3 after normalization). -/
theorem C1_cascade_supersession_witness :
    detect_orientation gW ⟨some (90, 1/2), some (0, 30), .raised⟩ =
      (if (tesseract_osd_fallback gW (some (0, 30)) .raised).confidence > 1/2
       then tesseract_osd_fallback gW (some (0, 30)) .raised
       else ⟨90, 1/2, "paddleocr", false⟩) :=
  C1_cascade_supersession.1 gW ⟨some (90, 1/2), some (0, 30), GeoResult.raised⟩
    90 (1/2) rfl (by norm_num)

/-- C2 counterexample: when the CNN and OCR stages raise and the geometry
stage finds no lines (HoughLines returns None), the classifier returns
confidence 0.3, not 0.1 as claimed. -/
theorem C2_counterexample :
    (detect_orientation gW ⟨none, none, .lines none⟩).angle = 0 ∧
    (detect_orientation gW ⟨none, none, .lines none⟩).confidence = 3/10 ∧
    ¬ (detect_orientation gW ⟨none, none, .lines none⟩).confidence = 1/10 := by
  refine ⟨rfl, rfl, ?_⟩
  intro h
  simp only [detect_orientation, tesseract_osd_fallback, geometry_fallback,
    geoAngles, geoVote] at h
  norm_num at h

/-- C2 amended: when the CNN and OCR stages raise, the classifier returns
angle 0 with confidence 0.1 when the geometry stage itself raises, and
angle 0 with confidence 0.3 when the geometry stage finds no lines
(HoughLines returns None or an empty array); it is a total function, so it
never raises to its caller. -/
theorem C2_default_estimates (env : GeoEnv) (inp : OrientationInput)
    (hp : inp.paddle = none) (ho : inp.osd = none) :
    (inp.geo = .raised →
       detect_orientation env inp = ⟨0, 1/10, "default", true⟩)
    ∧ (inp.geo = .lines none →
       detect_orientation env inp = ⟨0, 3/10, "geometry_default", true⟩)
    ∧ (inp.geo = .lines (some []) →
       detect_orientation env inp = ⟨0, 3/10, "geometry_default", true⟩) := by
  refine ⟨?_, ?_, ?_⟩ <;> intro hg <;>
    simp [detect_orientation, tesseract_osd_fallback, geometry_fallback,
      geoAngles, geoVote, hp, ho, hg]

/-- Witness for the amended C2 with all three stages failing. -/
theorem C2_default_estimates_witness :
    detect_orientation gW ⟨none, none, .raised⟩ = ⟨0, 1/10, "default", true⟩ :=
  (C2_default_estimates gW ⟨none, none, GeoResult.raised⟩ rfl rfl).1 rfl

/-- C9: whichever estimator of the cascade produces the returned estimate,
its confidence lies in [0, 1], provided the external engines report values
in their documented ranges (a PaddleOCR softmax score in [0, 1], a
Tesseract orientation_conf in [0, 100]); the geometry stage and the
defaults need no such assumption.  Rational-valued confidences can never
be NaN. -/
theorem C9_confidence_in_unit_interval (env : GeoEnv) (inp : OrientationInput)
    (hp : ∀ a c, inp.paddle = some (a, c) → 0 ≤ c ∧ c ≤ 1)
    (ho : ∀ r rc, inp.osd = some (r, rc) → 0 ≤ rc ∧ rc ≤ 100) :
    0 ≤ (detect_orientation env inp).confidence ∧
    (detect_orientation env inp).confidence ≤ 1 := by
  cases hpd : inp.paddle with
  | none =>
    simp only [detect_orientation, hpd]
    exact osd_conf_bounds env inp.osd inp.geo ho
  | some p =>
    obtain ⟨a, c⟩ := p
    obtain ⟨hc0, hc1⟩ := hp a c hpd
    simp only [detect_orientation, hpd]
    split_ifs with hlow hfb
    · exact osd_conf_bounds env inp.osd inp.geo ho
    · exact ⟨hc0, hc1⟩
    · exact ⟨hc0, hc1⟩

/-- Witness for C9: a CNN estimate of confidence 0.5 with an OSD estimate
of raw confidence 40 and a raised geometry stage. -/
theorem C9_confidence_in_unit_interval_witness :
    0 ≤ (detect_orientation gW ⟨some (0, 1/2), some (0, 40), .raised⟩).confidence ∧
    (detect_orientation gW ⟨some (0, 1/2), some (0, 40), .raised⟩).confidence ≤ 1 :=
  C9_confidence_in_unit_interval gW ⟨some (0, 1/2), some (0, 40), GeoResult.raised⟩
    (by intro a c h; simp only [Option.some_inj, Prod.mk.injEq] at h; rw [← h.2]; norm_num)
    (by intro r rc h; simp only [Option.some_inj, Prod.mk.injEq] at h; rw [← h.2]; norm_num)

/-- A single fold lands in [-45, 45] exactly on raw angles in [-135, 135]. -/
theorem foldOnce_mem_of_range (x : ℚ) (h0 : -135 ≤ x) (h1 : x ≤ 135) :
    -45 ≤ foldOnce x ∧ foldOnce x ≤ 45 := by
  unfold foldOnce
  split_ifs <;> constructor <;> linarith

/-- C3 counterexample: on the segment from (1, 0) to (0, 0) the raw angle
is np.degrees(np.arctan2(0, -1)) = 180 (the oracle skW180 agrees with
np.arctan2 there), and the single fold of the code leaves the normalized
angle at 90, outside [-45, 45]. -/
theorem C3_counterexample :
    segAngles skW180 [⟨1, 0, 0, 0⟩] = [90] ∧
    ¬ ((-45 : ℚ) ≤ 90 ∧ (90 : ℚ) ≤ 45) := by
  constructor
  · norm_num [segAngles, skW180, foldOnce, List.filterMap_cons, List.filterMap_nil]
  · intro h
    have := h.2
    norm_num at this

/-- C3 amended: the detector folds each raw segment angle by a single
multiple of 90, which lands in [-45, 45] exactly when the raw angle lies
within [-135, 135]; under that range condition, when at least one
non-vertical segment exists and the median magnitude is within the trusted
limit of 5 degrees, the detector returns the median of the normalized
angles together with confidence max(0, 1 - std/10), where std is the
square root of the population variance of the normalized angles. -/
theorem C3_skew_statistics (env : SkewEnv) (segs : List Seg)
    (hrange : ∀ s ∈ segs, s.x2 ≠ s.x1 →
       -135 ≤ env.atan2deg (s.y2 - s.y1) (s.x2 - s.x1) ∧
       env.atan2deg (s.y2 - s.y1) (s.x2 - s.x1) ≤ 135)
    (hne : segAngles env segs ≠ [])
    (hmed : |npMedian (segAngles env segs)| ≤ 5) :
    (∀ a ∈ segAngles env segs, -45 ≤ a ∧ a ≤ 45)
    ∧ detect_skew_angle env (some segs) =
        (npMedian (segAngles env segs),
         max 0 (1 - env.sqrtQ (npVariance (segAngles env segs)) / 10)) := by
  constructor
  · intro a ha
    simp only [segAngles, List.mem_filterMap] at ha
    obtain ⟨s, hs, hsome⟩ := ha
    by_cases hx : s.x2 = s.x1
    · simp [hx] at hsome
    · simp only [if_neg hx, Option.some_inj] at hsome
      obtain ⟨hr0, hr1⟩ := hrange s hs hx
      rw [← hsome]
      exact foldOnce_mem_of_range _ hr0 hr1
  · simp only [detect_skew_angle, if_neg hne]
    rw [if_neg (not_lt.mpr hmed)]

/-- Witness for the amended C3 on two segments of raw angles 1 and 3. -/
theorem C3_skew_statistics_witness :
    (∀ a ∈ segAngles skW [⟨0, 0, 1, 1⟩, ⟨0, 0, 1, 3⟩], -45 ≤ a ∧ a ≤ 45)
    ∧ detect_skew_angle skW (some [⟨0, 0, 1, 1⟩, ⟨0, 0, 1, 3⟩]) =
        (npMedian (segAngles skW [⟨0, 0, 1, 1⟩, ⟨0, 0, 1, 3⟩]),
         max 0 (1 - skW.sqrtQ
           (npVariance (segAngles skW [⟨0, 0, 1, 1⟩, ⟨0, 0, 1, 3⟩])) / 10)) :=
  C3_skew_statistics skW [⟨0, 0, 1, 1⟩, ⟨0, 0, 1, 3⟩]
    (by intro s hs hx; fin_cases hs <;> norm_num [skW])
    (by rw [show segAngles skW [⟨0, 0, 1, 1⟩, ⟨0, 0, 1, 3⟩] = [1, 3] from
          by norm_num [segAngles, skW, foldOnce, List.filterMap_cons, List.filterMap_nil]]
        simp)
    (by rw [show segAngles skW [⟨0, 0, 1, 1⟩, ⟨0, 0, 1, 3⟩] = [1, 3] from
          by norm_num [segAngles, skW, foldOnce, List.filterMap_cons, List.filterMap_nil],
        show npMedian [1, 3] = 2 from by norm_num [npMedian, List.mergeSort],
        abs_le]; norm_num)

/-- C4: the skew detector returns (0, 0) when no line evidence exists
(HoughLinesP raised or returned None, or every segment was vertical), a
median of magnitude above the maximum trusted skew of 5 degrees is
rejected as (0, 0), and every returned nonzero angle has magnitude at
most 5. -/
theorem C4_skew_reject (env : SkewEnv) (segs : Option (List Seg)) :
    (detect_skew_angle env none = (0, 0))
    ∧ (∀ ls, segs = some ls → segAngles env ls = [] →
        detect_skew_angle env segs = (0, 0))
    ∧ (∀ ls, segs = some ls → 5 < |npMedian (segAngles env ls)| →
        detect_skew_angle env segs = (0, 0))
    ∧ ((detect_skew_angle env segs).1 ≠ 0 →
        |(detect_skew_angle env segs).1| ≤ 5) := by
  refine ⟨rfl, ?_, ?_, ?_⟩
  · intro ls hls he
    subst hls
    simp [detect_skew_angle, he]
  · intro ls hls hgt
    subst hls
    simp only [detect_skew_angle]
    by_cases he : segAngles env ls = []
    · simp [he]
    · rw [if_neg he, if_pos hgt]
  · intro hne
    cases segs with
    | none => simp [detect_skew_angle] at hne
    | some ls =>
      by_cases he : segAngles env ls = []
      · simp [detect_skew_angle, he] at hne
      · by_cases hm : |npMedian (segAngles env ls)| > 5
        · simp [detect_skew_angle, if_neg he, if_pos hm] at hne
        · have : detect_skew_angle env (some ls) =
              (npMedian (segAngles env ls),
               max 0 (1 - env.sqrtQ (npVariance (segAngles env ls)) / 10)) := by
            simp only [detect_skew_angle, if_neg he]
            rw [if_neg hm]
          rw [this]
          exact not_lt.mp hm

/-- Witness for C4 at a single segment of raw angle 6: the median 6
exceeds the trusted limit and the detector rejects to (0, 0). -/
theorem C4_skew_reject_witness :
    detect_skew_angle skW (some [⟨0, 0, 1, 6⟩]) = (0, 0) :=
  (C4_skew_reject skW (some [⟨0, 0, 1, 6⟩])).2.2.1 [⟨0, 0, 1, 6⟩] rfl
    (by rw [show segAngles skW [⟨0, 0, 1, 6⟩] = [6] from
          by norm_num [segAngles, skW, foldOnce, List.filterMap_cons, List.filterMap_nil],
        show npMedian [6] = 6 from by norm_num [npMedian, List.mergeSort],
        show |(6 : ℚ)| = 6 from abs_of_nonneg (by norm_num)]; norm_num)

/-- C5 counterexample: at an angle of exactly 0.3 degrees, whose magnitude
does not exceed the 0.3 threshold, the corrector does rotate: on input
image 0 with a warp oracle returning image 1, the result image is 1 and
the applied angle reported is 0.3, not 0. -/
theorem C5_counterexample :
    correct_skew skW rW 0 4 4 (some (3/10)) none = (1, 3/10) ∧
    ¬ ((3 : ℚ)/10 > 3/10) ∧ ((3 : ℚ)/10 ≠ 0) ∧ ((1 : ℕ) ≠ 0) := by
  have habs : |(3 : ℚ)/10| = 3/10 := abs_of_nonneg (by norm_num)
  refine ⟨?_, by norm_num, by norm_num, by norm_num⟩
  simp only [correct_skew, effectiveAngle, habs]
  rw [if_neg (by norm_num)]
  rfl

/-- C5 amended: the corrector applies a rotation exactly when the (given
or detected) angle has magnitude at least the 0.3 minimum threshold;
below the threshold the input image is returned unchanged with applied
angle 0, and at or above it the image is warped onto the enlarged canvas
new_w = int(h * sin + w * cos), new_h = int(h * cos + w * sin) and the
angle itself is reported. -/
theorem C5_threshold_and_canvas (α : Type) (env : SkewEnv) (renv : RotateEnv α)
    (img : α) (w h : ℕ) (angleOpt : Option ℚ) (segs : Option (List Seg)) :
    (|effectiveAngle env segs angleOpt| < 3/10 →
       correct_skew env renv img w h angleOpt segs = (img, 0))
    ∧ (3/10 ≤ |effectiveAngle env segs angleOpt| →
       correct_skew env renv img w h angleOpt segs =
         (renv.warpAffine img
            (⌊(h : ℚ) * renv.sinAbs + (w : ℚ) * renv.cosAbs⌋,
             ⌊(h : ℚ) * renv.cosAbs + (w : ℚ) * renv.sinAbs⌋),
          effectiveAngle env segs angleOpt)) := by
  constructor
  · intro hlt
    simp only [correct_skew]
    rw [if_pos hlt]
  · intro hge
    simp only [correct_skew, newCanvas]
    rw [if_neg (not_lt.mpr hge)]

/-- Witness for the amended C5: a given angle of 0 is below the threshold
and leaves the image untouched. -/
theorem C5_threshold_and_canvas_witness :
    correct_skew skW rW 5 4 4 (some 0) none = (5, 0) :=
  (C5_threshold_and_canvas ℕ skW rW 5 4 4 (some 0) none).1
    (by norm_num [effectiveAngle])

/-- A successful findSome? fires on the first element the function accepts,
every earlier element yielding none. -/
theorem findSome?_first {β γ : Type} (f : β → Option γ) (l : List β) (b : γ)
    (h : l.findSome? f = some b) :
    ∃ pre x post, l = pre ++ x :: post ∧ f x = some b ∧ ∀ y ∈ pre, f y = none := by
  induction l with
  | nil => simp [List.findSome?] at h
  | cons a t ih =>
    rw [List.findSome?_cons] at h
    cases hfa : f a with
    | some v =>
      rw [hfa] at h
      obtain rfl : v = b := by simpa using h
      exact ⟨[], a, t, rfl, hfa, by simp⟩
    | none =>
      rw [hfa] at h
      obtain ⟨pre, x, post, hsplit, hx, hpre⟩ := ih h
      refine ⟨a :: pre, x, post, by simp [hsplit], hx, ?_⟩
      intro y hy
      rcases List.mem_cons.mp hy with rfl | hy2
      · exact hfa
      · exact hpre y hy2

/-- C6: the cropper tries its three strategies in their fixed conservative
to aggressive order; within a strategy the contours are sorted by area
descending and only the first five are considered; the accepted quad is
the first contour in that order whose polygon approximation has 4 points
and area exceeding one tenth of the total image area; the first strategy
yielding such a quad wins (all earlier strategies yield none), and when no
strategy yields one, warp_card produces the manual-review outcome whose
logged reason states that no 4-point contour was found with any strategy,
rather than an error. -/
theorem C6_strategy_loop :
    (∀ (detect : Strategy → List Contour) (A : ℚ) (st : Strategy) (c : Contour),
       firstQuad detect A = some (st, c) →
       quadAccept A c = true
       ∧ (∃ pre post, strategies = pre ++ st :: post ∧
            ∀ s ∈ pre, findQuadIn A (detect s) = none)
       ∧ (∃ pre post, sortedTop5 (detect st) = pre ++ c :: post ∧
            ∀ d ∈ pre, quadAccept A d = false))
    ∧ (∀ cs : List Contour, List.Pairwise (fun a b : Contour => b.area ≤ a.area)
         (cs.mergeSort (fun a b => b.area ≤ a.area)))
    ∧ (∀ (α : Type) (env : CropEnv α) (h w : ℕ), env.image = some (h, w) →
         firstQuad env.detect ((h : ℚ) * (w : ℚ)) = none →
         warp_card env =
           CropOutcome.manualReview "No 4-point contour found with any strategy") := by
  refine ⟨?_, ?_, ?_⟩
  · intro detect A st c h
    obtain ⟨pre, x, post, hsplit, hx, hpre⟩ := findSome?_first _ _ _ h
    rw [Option.map_eq_some'] at hx
    obtain ⟨c0, hfq, hpair⟩ := hx
    obtain ⟨rfl, rfl⟩ : x = st ∧ c0 = c := by
      simpa [Prod.ext_iff] using hpair
    obtain ⟨hacc, as, bs, hsort, hnone⟩ := List.find?_eq_some.mp hfq
    refine ⟨hacc, ⟨pre, post, hsplit, ?_⟩, ⟨as, bs, hsort, ?_⟩⟩
    · intro s hs
      exact Option.map_eq_none'.mp (hpre s hs)
    · intro d hd
      have := hnone d hd
      simpa using this
  · intro cs
    refine List.Pairwise.imp ?_ (List.sorted_mergeSort ?_ ?_ cs)
    · intro a b hab
      exact of_decide_eq_true hab
    · intro a b c hab hbc
      simp only [decide_eq_true_eq] at hab hbc ⊢
      exact le_trans hbc hab
    · intro a b
      simp only [Bool.or_eq_true, decide_eq_true_eq]
      exact le_total _ _
  · intro α env h w himg hq
    simp only [warp_card, himg, hq]

/-- Witness for C6 through the oracle detectW, whose sensitive strategy is
the first to yield an accepted quad. -/
theorem C6_strategy_loop_witness :
    quadAccept 100 ⟨100, 4, 50⟩ = true :=
  (C6_strategy_loop.1 detectW 100 ⟨(3, 3), 50, 150, "sensitive"⟩ ⟨100, 4, 50⟩
    (by
      have hacc : quadAccept 100 ⟨100, 4, 50⟩ = true := by
        simp only [quadAccept, decide_eq_true_eq]
        norm_num
      have h1 : findQuadIn 100 (detectW ⟨(5, 5), 75, 200, "standard"⟩) = none := by
        simp [findQuadIn, detectW, sortedTop5, List.mergeSort]
      have h2 : findQuadIn 100 (detectW ⟨(3, 3), 50, 150, "sensitive"⟩) =
          some ⟨100, 4, 50⟩ := by
        simp [findQuadIn, detectW, sortedTop5, List.mergeSort, List.find?, hacc]
      simp [firstQuad, strategies, List.findSome?_cons, h1, h2])).1

/-- C7: once a quad is accepted and the perspective warp succeeded, the
cropper escalates to the manual-review outcome for extreme intensity
exactly when the warped mean intensity lies outside [10, 245]; when the
mean is inside the range, the result is the cropped image, deskewed by the
refinement rotation exactly when the measured EAST skew magnitude exceeds
1 degree. -/
theorem C7_intensity_gate (α : Type) (env : CropEnv α) (h w : ℕ)
    (himg : env.image = some (h, w)) (st : Strategy) (c : Contour)
    (hq : firstQuad env.detect ((h : ℚ) * (w : ℚ)) = some (st, c))
    (warped : α) (hwp : env.warp = .ok warped) :
    (warp_card env = .manualReview "Warped image has extreme intensity values"
       ↔ (env.meanIntensity warped < 10 ∨ env.meanIntensity warped > 245))
    ∧ (10 ≤ env.meanIntensity warped → env.meanIntensity warped ≤ 245 →
       warp_card env = .cropped st.sname
         (if |env.eastSkew warped| > 1
          then env.rotate warped (env.eastSkew warped) else warped)) := by
  have hcard : warp_card env =
      (if env.meanIntensity warped < 10 ∨ env.meanIntensity warped > 245 then
        .manualReview "Warped image has extreme intensity values"
       else
        .cropped st.sname
          (if |env.eastSkew warped| > 1
           then env.rotate warped (env.eastSkew warped) else warped)) := by
    simp only [warp_card, himg, hq, hwp]
  constructor
  · rw [hcard]
    by_cases hm : env.meanIntensity warped < 10 ∨ env.meanIntensity warped > 245
    · simp [hm]
    · simp [hm]
  · intro h1 h2
    rw [hcard, if_neg (by push_neg; exact ⟨h1, h2⟩)]

/-- Witness for C7 through the oracle cEnvW, whose warped mean intensity
100 lies inside the accepted range and whose EAST skew is 0. -/
theorem C7_intensity_gate_witness :
    warp_card cEnvW = CropOutcome.cropped
      (Strategy.sname ⟨(3, 3), 50, 150, "sensitive"⟩)
      (if |cEnvW.eastSkew 7| > 1 then cEnvW.rotate 7 (cEnvW.eastSkew 7) else 7) :=
  (C7_intensity_gate ℕ cEnvW 10 10 rfl ⟨(3, 3), 50, 150, "sensitive"⟩ ⟨100, 4, 50⟩
    (by norm_num [cEnvW, firstQuad, strategies, List.findSome?_cons, findQuadIn,
      sortedTop5, List.mergeSort, detectW, quadAccept])
    7 rfl).2 (by norm_num [cEnvW]) (by norm_num [cEnvW])

/-- C8: the pipeline is a total function of its stage outcomes (so it never
raises), the normalized image is present in the result exactly when
success is true, the error string is present exactly when success is
false, and a failing decode stage or skew stage turns into a success-false
record carrying that error message and the elapsed time. -/
theorem C8_result_shape (α : Type) (env : PipelineEnv α) :
    ((straighten_image env).image.isSome ↔ (straighten_image env).success = true)
    ∧ ((straighten_image env).error.isSome ↔ (straighten_image env).success = false)
    ∧ (∀ e, env.decoded = .error e →
        straighten_image env = ⟨false, none, some e, none, none, env.elapsed⟩)
    ∧ (∀ img e, env.decoded = .ok img →
        env.skewStage (coarseRotated env img) = .error e →
        straighten_image env = ⟨false, none, some e, none, none, env.elapsed⟩) := by
  cases hd : env.decoded with
  | error e0 =>
    refine ⟨?_, ?_, ?_, ?_⟩
    · simp [straighten_image, hd]
    · simp [straighten_image, hd]
    · intro e he
      obtain rfl : e0 = e := by simpa using he
      simp [straighten_image, hd]
    · intro img e he _
      simp at he
  | ok img0 =>
    cases hs : env.skewStage (coarseRotated env img0) with
    | error e0 =>
      refine ⟨?_, ?_, ?_, ?_⟩
      · simp [straighten_image, hd, hs]
      · simp [straighten_image, hd, hs]
      · intro e he
        simp at he
      · intro img e hok hse
        obtain rfl : img0 = img := by simpa using hok
        rw [hs] at hse
        obtain rfl : e0 = e := by simpa using hse
        simp [straighten_image, hd, hs]
    | ok p =>
      obtain ⟨i3, sa⟩ := p
      refine ⟨?_, ?_, ?_, ?_⟩
      · simp [straighten_image, hd, hs]
      · simp [straighten_image, hd, hs]
      · intro e he
        simp at he
      · intro img e hok hse
        obtain rfl : img0 = img := by simpa using hok
        rw [hs] at hse
        simp at hse

/-- Witness for C8 through the oracle pEnvW, whose decode stage fails with
the message boom. -/
theorem C8_result_shape_witness :
    straighten_image pEnvW = ⟨false, none, some "boom", none, none, 1⟩ :=
  (C8_result_shape ℕ pEnvW).2.2.1 "boom" rfl

/-- C10: in the brute-force rotator, a pass without nonblank OCR words
scores -1; the selection loop evaluates the score at 0, 90, 180, 270 in
that order and keeps the first maximum (a later angle wins only with a
strictly greater score, so on ties the earlier angle is kept and 0 is
evaluated first); when angle 0 wins the original path is returned with no
file written, and in particular when every rotation yields no OCR words
(every score -1) the original path is returned unmodified. -/
theorem C10_bruteforce_rotation (o : RotOracle) (path name : String) :
    (∀ base enh : OcrPass, passWords base = [] → ocr_score base enh = -1)
    ∧ ((auto_rotate_best o).2 = scoreAt o (auto_rotate_best o).1)
    ∧ ((auto_rotate_best o).1 ∈ [0, 90, 180, 270])
    ∧ (∀ a ∈ [0, 90, 180, 270], scoreAt o a ≤ (auto_rotate_best o).2)
    ∧ (∀ a ∈ [0, 90, 180, 270], a < (auto_rotate_best o).1 →
        scoreAt o a < (auto_rotate_best o).2)
    ∧ ((auto_rotate_best o).1 = 0 →
        auto_rotate o path name = .keepOriginal path)
    ∧ ((∀ a ∈ [0, 90, 180, 270], passWords (o.ocrAt a).1 = []) →
        auto_rotate o path name = .keepOriginal path) := by
  have hscore : ∀ base enh : OcrPass, passWords base = [] →
      ocr_score base enh = -1 := by
    intro base enh hw
    simp [ocr_score, hw]
  refine ⟨hscore, ?_, ?_, ?_, ?_, ?_, ?_⟩
  · simp only [auto_rotate_best, List.foldl]
    split_ifs <;> rfl
  · simp only [auto_rotate_best, List.foldl]
    split_ifs <;> simp
  · simp only [auto_rotate_best, List.foldl]
    split_ifs <;> (intro a ha; fin_cases ha <;> linarith)
  · simp only [auto_rotate_best, List.foldl]
    split_ifs <;>
      (intro a ha; fin_cases ha <;> intro hlt <;>
        first
          | exact absurd hlt (by decide)
          | linarith)
  · intro h0
    simp [auto_rotate, h0]
  · intro hw
    have e0 : scoreAt o 0 = -1 := hscore _ _ (hw 0 (by decide))
    have e90 : scoreAt o 90 = -1 := hscore _ _ (hw 90 (by decide))
    have e180 : scoreAt o 180 = -1 := hscore _ _ (hw 180 (by decide))
    have e270 : scoreAt o 270 = -1 := hscore _ _ (hw 270 (by decide))
    norm_num [auto_rotate, auto_rotate_best, List.foldl, e0, e90, e180, e270]

/-- Witness for C10 through the blank oracle oW: every rotation yields no
words, so the original path is kept. -/
theorem C10_bruteforce_rotation_witness :
    auto_rotate oW "card.jpg" "card.jpg" = .keepOriginal "card.jpg" :=
  (C10_bruteforce_rotation oW "card.jpg" "card.jpg").2.2.2.2.2.2
    (by intro a ha; rfl)
